import Mathlib

/-!
Shallow embedding of `programs/token/ThawAccount.go` from the solana_go
repository: the `ThawAccount` instruction builder, its setters, validation,
and build step, together with the small account-reference model it uses.

Definitions mirror the Go source line by line.  Types and helpers from the
surrounding library (account metadata, the split operation, the signer
maximum, the instruction discriminant) that are part of the repository but
not among the provided source files are modelled from the specification and
carry a doc comment saying so.
-/

/-- Modelled from the spec: an `Address` is a fixed-size 32-byte opaque
identifier compared by byte equality (`ag_solanago.PublicKey`). -/
structure PublicKey where
  bytes : List Nat
deriving DecidableEq, Repr

/-- Modelled from the spec: an account reference
`{ address, writable : bool, signer : bool }` (`ag_solanago.AccountMeta`). -/
structure AccountMeta where
  publicKey : PublicKey
  isWritable : Bool
  isSigner : Bool
deriving DecidableEq, Repr

/-- Modelled from the spec: `ag_solanago.Meta(pk)` creates an account
reference with both capability flags clear. -/
def Meta (pk : PublicKey) : AccountMeta :=
  { publicKey := pk, isWritable := false, isSigner := false }

/-- Modelled from the spec: marking an account reference writable
(`AccountMeta.WRITE`). -/
def AccountMeta.WRITE (m : AccountMeta) : AccountMeta :=
  { m with isWritable := true }

/-- Modelled from the spec: marking an account reference as a required
signer (`AccountMeta.SIGNER`). -/
def AccountMeta.SIGNER (m : AccountMeta) : AccountMeta :=
  { m with isSigner := true }

/-- Modelled from the spec: the protocol maximum number of multisig
signers; the source's validation error text fixes it at 11
(`token.MAX_SIGNERS`). -/
def MAX_SIGNERS : Nat := 11

/-- Modelled from the spec: the fixed, pre-assigned discriminant selecting
the `ThawAccount` variant of the token program's closed instruction set
(`token.Instruction_ThawAccount`, value 11 in the SPL token enumeration). -/
def Instruction_ThawAccount : Nat := 11

/-- Modelled from the spec: `ag_binary.TypeIDFromUint32(v, LittleEndian)`
renders a 32-bit discriminant as its four bytes in little-endian order. -/
def uint32LEBytes (v : Nat) : List Nat :=
  [v % 256, v / 256 % 256, v / 256 ^ 2 % 256, v / 256 ^ 3 % 256]

/-- The `ThawAccount` builder state: three fixed account slots
(`[0] account`, `[1] mint`, `[2] authority`), each a nullable reference,
followed by the variable multisig-signer list (`Accounts` and `Signers`
fields of Go `ThawAccount`; slice entries are pointers, hence `Option`). -/
structure ThawAccount where
  accounts : List (Option AccountMeta)
  signers : List (Option AccountMeta)
deriving DecidableEq, Repr

/-- `NewThawAccountInstructionBuilder`: three empty fixed slots and an
empty signer list. -/
def NewThawAccountInstructionBuilder : ThawAccount :=
  { accounts := [none, none, none], signers := [] }

/-- `ThawAccount.SetAccounts`: split the flat list from index 3 into the
fixed slots and the variable signer tail.  `AccountMetaSlice.SplitFrom` is
modelled from the spec: the first `n` refs and the remaining refs, order
preserved in each segment.  (The Go method also returns an error that is
always nil.) -/
def ThawAccount.SetAccounts (inst : ThawAccount)
    (accounts : List (Option AccountMeta)) : ThawAccount :=
  { inst with accounts := accounts.take 3, signers := accounts.drop 3 }

/-- `ThawAccount.GetAccounts`: the fixed slots followed by the variable
signers. -/
def ThawAccount.GetAccounts (inst : ThawAccount) : List (Option AccountMeta) :=
  inst.accounts ++ inst.signers

/-- `ThawAccount.SetAccount`: store the account to thaw, writable, in
slot 0. -/
def ThawAccount.SetAccount (inst : ThawAccount) (account : PublicKey) :
    ThawAccount :=
  { inst with accounts := inst.accounts.set 0 (some ((Meta account).WRITE)) }

/-- `ThawAccount.GetAccount`: slot 0. -/
def ThawAccount.GetAccount (inst : ThawAccount) : Option AccountMeta :=
  inst.accounts.getD 0 none

/-- `ThawAccount.SetMintAccount`: store the token mint in slot 1. -/
def ThawAccount.SetMintAccount (inst : ThawAccount) (mint : PublicKey) :
    ThawAccount :=
  { inst with accounts := inst.accounts.set 1 (some (Meta mint)) }

/-- `ThawAccount.GetMintAccount`: slot 1. -/
def ThawAccount.GetMintAccount (inst : ThawAccount) : Option AccountMeta :=
  inst.accounts.getD 1 none

/-- `ThawAccount.SetAuthorityAccount`: store the freeze authority in
slot 2; when no multisig signers are given the slot itself is marked
signer, otherwise each given address is appended to the variable signer
list as a signer-only reference. -/
def ThawAccount.SetAuthorityAccount (inst : ThawAccount)
    (authority : PublicKey) (multisigSigners : List PublicKey) : ThawAccount :=
  let auth :=
    if multisigSigners.length = 0 then (Meta authority).SIGNER
    else Meta authority
  { inst with
    accounts := inst.accounts.set 2 (some auth),
    signers :=
      inst.signers ++ multisigSigners.map (fun s => some ((Meta s).SIGNER)) }

/-- `ThawAccount.GetAuthorityAccount`: slot 2. -/
def ThawAccount.GetAuthorityAccount (inst : ThawAccount) : Option AccountMeta :=
  inst.accounts.getD 2 none

/-- The immutable instruction envelope produced by `Build` (the token
package's `Instruction` wrapping `ag_binary.BaseVariant`): the four-byte
discriminant and the embedded variant. -/
structure Instruction where
  typeID : List Nat
  impl : ThawAccount
deriving DecidableEq, Repr

/-- `ThawAccount.MarshalWithEncoder` writes nothing: the payload encoder
emits zero bytes. -/
def ThawAccount.marshalBytes (_ : ThawAccount) : List Nat := []

/-- `Instruction.Data()`: the discriminant bytes followed by the encoded
payload. -/
def Instruction.data (i : Instruction) : List Nat :=
  i.typeID ++ i.impl.marshalBytes

/-- `Instruction.Accounts()` delegates to the variant's `GetAccounts`. -/
def Instruction.accountList (i : Instruction) : List (Option AccountMeta) :=
  i.impl.GetAccounts

/-- `ThawAccount.Build`: wrap the builder state with the little-endian
`ThawAccount` discriminant. -/
def ThawAccount.Build (inst : ThawAccount) : Instruction :=
  { typeID := uint32LEBytes Instruction_ThawAccount, impl := inst }

/-- `ThawAccount.Validate`: the nil-checks on the three fixed slots, the
missing-signer check, and the signer-count bound, in source order; `some`
is the returned error message, `none` is success. -/
def ThawAccount.Validate (inst : ThawAccount) : Option String :=
  if inst.accounts.getD 0 none = none then
    some "accounts.Account is not set"
  else if inst.accounts.getD 1 none = none then
    some "accounts.Mint is not set"
  else if inst.accounts.getD 2 none = none then
    some "accounts.Authority is not set"
  else if ((inst.accounts.getD 2 none).map AccountMeta.isSigner = some false)
      ∧ inst.signers.length = 0 then
    some "accounts.Signers is not set"
  else if inst.signers.length > MAX_SIGNERS then
    some ("too many signers; got " ++ toString inst.signers.length
      ++ ", but max is 11")
  else
    none

/-- `ThawAccount.ValidateAndBuild`: validate, then build on success;
on failure return the validation error and no envelope. -/
def ThawAccount.ValidateAndBuild (inst : ThawAccount) :
    Except String Instruction :=
  match inst.Validate with
  | some e => Except.error e
  | none => Except.ok inst.Build

/-- `NewThawAccountInstruction`: the convenience constructor, the builder
chain from the source. -/
def NewThawAccountInstruction (account mint authority : PublicKey)
    (multisigSigners : List PublicKey) : ThawAccount :=
  ((NewThawAccountInstructionBuilder.SetAccount account).SetMintAccount
    mint).SetAuthorityAccount authority multisigSigners

/-! Concrete addresses used by witnesses and counterexamples. -/

/-- A concrete address standing for the account to thaw. -/
def pkA : PublicKey := ⟨[1]⟩

/-- A concrete address standing for the token mint. -/
def pkM : PublicKey := ⟨[2]⟩

/-- A concrete address standing for the freeze authority. -/
def pkAu : PublicKey := ⟨[3]⟩

/-- A concrete address standing for a multisig signer. -/
def pkS1 : PublicKey := ⟨[4]⟩

/-- A second concrete address standing for a multisig signer. -/
def pkS2 : PublicKey := ⟨[5]⟩

/-- A list of `n` distinct concrete addresses. -/
def pkList (n : Nat) : List PublicKey :=
  (List.range n).map (fun i => ⟨[i + 10]⟩)

/-- Claim C1: for every builder state with its three fixed slots allocated,
`GetAccounts` returns the fixed slots (account, mint, authority) in
declared order followed by the variable signers in append order, and its
length is `3 + the number of signers`. -/
theorem ThawAccount_getAccounts_shape (inst : ThawAccount)
    (h : inst.accounts.length = 3) :
    inst.GetAccounts
      = [inst.GetAccount, inst.GetMintAccount, inst.GetAuthorityAccount]
        ++ inst.signers
    ∧ inst.GetAccounts.length = 3 + inst.signers.length := by
  obtain ⟨a, b, c, habc⟩ := List.length_eq_three.mp h
  constructor
  · simp [ThawAccount.GetAccounts, ThawAccount.GetAccount,
      ThawAccount.GetMintAccount, ThawAccount.GetAuthorityAccount, habc]
  · simp [ThawAccount.GetAccounts, habc]
    omega

/-- Witness for C1 at a concrete builder with one appended signer. -/
theorem ThawAccount_getAccounts_shape_witness :
    (NewThawAccountInstruction pkA pkM pkAu [pkS1]).GetAccounts
      = [(NewThawAccountInstruction pkA pkM pkAu [pkS1]).GetAccount,
         (NewThawAccountInstruction pkA pkM pkAu [pkS1]).GetMintAccount,
         (NewThawAccountInstruction pkA pkM pkAu [pkS1]).GetAuthorityAccount]
        ++ (NewThawAccountInstruction pkA pkM pkAu [pkS1]).signers
    ∧ (NewThawAccountInstruction pkA pkM pkAu [pkS1]).GetAccounts.length
      = 3 + (NewThawAccountInstruction pkA pkM pkAu [pkS1]).signers.length :=
  ThawAccount_getAccounts_shape _ (by decide)

/-- Claim C2: with account `A`, mint `M` and authority `Au` set directly
(no multisig), validation succeeds, the account list is
`[(A, writable, non-signer), (M, read-only, non-signer),
(Au, read-only, signer)]`, and the built instruction's data is exactly the
four little-endian bytes of the `ThawAccount` discriminant with an empty
payload. -/
theorem ThawAccount_scenario_no_multisig (A M Au : PublicKey) :
    ((((NewThawAccountInstructionBuilder.SetAccount A).SetMintAccount
        M).SetAuthorityAccount Au []).Validate = none)
    ∧ ((((NewThawAccountInstructionBuilder.SetAccount A).SetMintAccount
        M).SetAuthorityAccount Au []).GetAccounts
      = [some { publicKey := A, isWritable := true, isSigner := false },
         some { publicKey := M, isWritable := false, isSigner := false },
         some { publicKey := Au, isWritable := false, isSigner := true }])
    ∧ ((((NewThawAccountInstructionBuilder.SetAccount A).SetMintAccount
        M).SetAuthorityAccount Au []).Build.data
      = uint32LEBytes Instruction_ThawAccount)
    ∧ ((((NewThawAccountInstructionBuilder.SetAccount A).SetMintAccount
        M).SetAuthorityAccount Au []).Build.data = [11, 0, 0, 0]) := by
  refine ⟨rfl, rfl, rfl, rfl⟩

/-- Claim C10: the convenience constructor equals the builder chain
`SetAccount`, `SetMintAccount`, `SetAuthorityAccount`. -/
theorem NewThawAccountInstruction_eq_chain (a m au : PublicKey)
    (sigs : List PublicKey) :
    NewThawAccountInstruction a m au sigs
      = ((NewThawAccountInstructionBuilder.SetAccount a).SetMintAccount
          m).SetAuthorityAccount au sigs := rfl

/-- Claim C3: an unset fixed slot (the first such in declared order) makes
`Validate` fail naming that slot; with all three fixed slots set, a
non-signer authority slot and no variable signers, `Validate` fails with
the missing-signer error. -/
theorem ThawAccount_validate_missing (inst : ThawAccount) :
    (inst.accounts.getD 0 none = none →
      inst.Validate = some "accounts.Account is not set")
    ∧ (inst.accounts.getD 0 none ≠ none →
       inst.accounts.getD 1 none = none →
      inst.Validate = some "accounts.Mint is not set")
    ∧ (inst.accounts.getD 0 none ≠ none →
       inst.accounts.getD 1 none ≠ none →
       inst.accounts.getD 2 none = none →
      inst.Validate = some "accounts.Authority is not set")
    ∧ (inst.accounts.getD 0 none ≠ none →
       inst.accounts.getD 1 none ≠ none →
       (inst.accounts.getD 2 none).map AccountMeta.isSigner = some false →
       inst.signers = [] →
      inst.Validate = some "accounts.Signers is not set") := by
  refine ⟨fun h0 => ?_, fun h0 h1 => ?_, fun h0 h1 h2 => ?_,
    fun h0 h1 hs hsig => ?_⟩
  · unfold ThawAccount.Validate
    rw [if_pos h0]
  · unfold ThawAccount.Validate
    rw [if_neg h0, if_pos h1]
  · unfold ThawAccount.Validate
    rw [if_neg h0, if_neg h1, if_pos h2]
  · obtain ⟨m, hm, hms⟩ := Option.map_eq_some'.mp hs
    unfold ThawAccount.Validate
    rw [if_neg h0, if_neg h1,
      if_neg (show ¬ inst.accounts.getD 2 none = none by
        rw [hm]; exact Option.some_ne_none m),
      if_pos ⟨hs, by simp [hsig]⟩]

/-- Witness for C3: each failure branch at a concrete builder. -/
theorem ThawAccount_validate_missing_witness :
    NewThawAccountInstructionBuilder.Validate
      = some "accounts.Account is not set"
    ∧ (NewThawAccountInstructionBuilder.SetAccount pkA).Validate
      = some "accounts.Mint is not set"
    ∧ ((NewThawAccountInstructionBuilder.SetAccount pkA).SetMintAccount
        pkM).Validate = some "accounts.Authority is not set"
    ∧ (NewThawAccountInstructionBuilder.SetAccounts
        [some ((Meta pkA).WRITE), some (Meta pkM), some (Meta pkAu)]).Validate
      = some "accounts.Signers is not set" :=
  ⟨(ThawAccount_validate_missing _).1 (by decide),
   (ThawAccount_validate_missing _).2.1 (by decide) (by decide),
   (ThawAccount_validate_missing _).2.2.1 (by decide) (by decide) (by decide),
   (ThawAccount_validate_missing _).2.2.2 (by decide) (by decide) (by decide)
     (by decide)⟩

/-- Claim C4: with the three fixed slots set, more than `MAX_SIGNERS = 11`
variable signers make `Validate` fail with the too-many-signers error,
while exactly 11 signers validate successfully. -/
theorem ThawAccount_validate_signer_bounds (inst : ThawAccount)
    (h0 : inst.accounts.getD 0 none ≠ none)
    (h1 : inst.accounts.getD 1 none ≠ none)
    (h2 : inst.accounts.getD 2 none ≠ none) :
    (inst.signers.length > MAX_SIGNERS →
      inst.Validate = some ("too many signers; got "
        ++ toString inst.signers.length ++ ", but max is 11"))
    ∧ (inst.signers.length = 11 → inst.Validate = none) := by
  constructor
  · intro hgt
    have hne : ¬ inst.signers.length = 0 := by
      simp only [MAX_SIGNERS] at hgt; omega
    unfold ThawAccount.Validate
    rw [if_neg h0, if_neg h1, if_neg h2, if_neg (fun hc => hne hc.2),
      if_pos hgt]
  · intro h11
    have hz : ¬ inst.signers.length = 0 := by omega
    have hgt : ¬ inst.signers.length > MAX_SIGNERS := by
      simp only [MAX_SIGNERS]; omega
    unfold ThawAccount.Validate
    rw [if_neg h0, if_neg h1, if_neg h2, if_neg (fun hc => hz hc.2),
      if_neg hgt]

/-- Witness for C4: 12 signers are rejected, 11 are accepted. -/
theorem ThawAccount_validate_signer_bounds_witness :
    (NewThawAccountInstruction pkA pkM pkAu (pkList 12)).Validate
      = some ("too many signers; got "
        ++ toString (NewThawAccountInstruction pkA pkM pkAu
            (pkList 12)).signers.length ++ ", but max is 11")
    ∧ (NewThawAccountInstruction pkA pkM pkAu (pkList 11)).Validate = none :=
  ⟨(ThawAccount_validate_signer_bounds _ (by decide) (by decide)
      (by decide)).1 (by decide),
   (ThawAccount_validate_signer_bounds _ (by decide) (by decide)
      (by decide)).2 (by decide)⟩

/-- A base builder state with account and mint set, used by witnesses. -/
def wBase : ThawAccount :=
  (NewThawAccountInstructionBuilder.SetAccount pkA).SetMintAccount pkM

/-- Claim C5: with `n ≥ 1` multisig signers, `SetAuthorityAccount` stores
the authority non-signer in slot 2 and appends each signer address as a
read-only signer reference in argument order; with two signers on a
fresh-signer builder the account list has length 5 and ends with the two
signer entries; with no multisig signers the authority slot itself is
marked signer. -/
theorem ThawAccount_setAuthority_multisig (inst : ThawAccount)
    (au : PublicKey) (sigs : List PublicKey) :
    (sigs ≠ [] →
      (inst.SetAuthorityAccount au sigs).accounts
        = inst.accounts.set 2 (some (Meta au))
      ∧ (inst.SetAuthorityAccount au sigs).signers
        = inst.signers ++ sigs.map (fun s => some ((Meta s).SIGNER)))
    ∧ ((inst.SetAuthorityAccount au []).accounts
        = inst.accounts.set 2 (some ((Meta au).SIGNER))
      ∧ (inst.SetAuthorityAccount au []).signers = inst.signers)
    ∧ (∀ s1 s2 : PublicKey, inst.signers = [] → inst.accounts.length = 3 →
        (inst.SetAuthorityAccount au [s1, s2]).GetAccounts.length = 5
        ∧ (inst.SetAuthorityAccount au [s1, s2]).GetAccounts.drop 3
          = [some ((Meta s1).SIGNER), some ((Meta s2).SIGNER)]) := by
  refine ⟨fun hne => ?_, ?_, fun s1 s2 hsig hlen => ?_⟩
  · have hlz : ¬ sigs.length = 0 := by
      simpa [List.length_eq_zero] using hne
    constructor
    · simp [ThawAccount.SetAuthorityAccount, hlz]
    · simp [ThawAccount.SetAuthorityAccount]
  · constructor
    · simp [ThawAccount.SetAuthorityAccount]
    · simp [ThawAccount.SetAuthorityAccount]
  · obtain ⟨a, b, c, habc⟩ := List.length_eq_three.mp hlen
    constructor
    · simp [ThawAccount.SetAuthorityAccount, ThawAccount.GetAccounts,
        habc, hsig]
    · simp [ThawAccount.SetAuthorityAccount, ThawAccount.GetAccounts,
        habc, hsig]

/-- Witness for C5 at a builder with account and mint set and two multisig
signers. -/
theorem ThawAccount_setAuthority_multisig_witness :
    (wBase.SetAuthorityAccount pkAu [pkS1, pkS2]).signers
      = wBase.signers ++ [pkS1, pkS2].map (fun s => some ((Meta s).SIGNER))
    ∧ (wBase.SetAuthorityAccount pkAu [pkS1, pkS2]).GetAccounts.length = 5
    ∧ (wBase.SetAuthorityAccount pkAu [pkS1, pkS2]).GetAccounts.drop 3
      = [some ((Meta pkS1).SIGNER), some ((Meta pkS2).SIGNER)] :=
  ⟨((ThawAccount_setAuthority_multisig wBase pkAu [pkS1, pkS2]).1
      (by decide)).2,
   ((ThawAccount_setAuthority_multisig wBase pkAu [pkS1, pkS2]).2.2 pkS1 pkS2
      (by decide) (by decide)).1,
   ((ThawAccount_setAuthority_multisig wBase pkAu [pkS1, pkS2]).2.2 pkS1 pkS2
      (by decide) (by decide)).2⟩

/-- Counterexample to claim C6 as stated: `SetAuthorityAccount` with a
non-empty multisig list appends the signer entries again on a second call,
so calling it twice with the same arguments does not equal calling it
once. -/
theorem ThawAccount_setter_not_idempotent_cex :
    ((NewThawAccountInstructionBuilder.SetAuthorityAccount pkAu
        [pkS1]).SetAuthorityAccount pkAu [pkS1])
      ≠ NewThawAccountInstructionBuilder.SetAuthorityAccount pkAu [pkS1] := by
  decide

/-- Claim C6 as amended: `SetAccount` and `SetMintAccount` overwrite one
slot, leave the signer list unchanged, and are idempotent;
`SetAuthorityAccount` is idempotent when called without multisig signers,
and with a multisig list it appends the signer entries to the variable
list on every call. -/
theorem ThawAccount_setters_idempotent_amended (inst : ThawAccount)
    (pk : PublicKey) (sigs : List PublicKey) :
    ((inst.SetAccount pk).SetAccount pk = inst.SetAccount pk)
    ∧ ((inst.SetMintAccount pk).SetMintAccount pk = inst.SetMintAccount pk)
    ∧ ((inst.SetAuthorityAccount pk []).SetAuthorityAccount pk []
        = inst.SetAuthorityAccount pk [])
    ∧ ((inst.SetAccount pk).signers = inst.signers)
    ∧ ((inst.SetMintAccount pk).signers = inst.signers)
    ∧ ((inst.SetAuthorityAccount pk sigs).signers
        = inst.signers ++ sigs.map (fun s => some ((Meta s).SIGNER))) := by
  refine ⟨?_, ?_, ?_, rfl, rfl, rfl⟩
  · simp [ThawAccount.SetAccount, List.set_set]
  · simp [ThawAccount.SetMintAccount, List.set_set]
  · simp [ThawAccount.SetAuthorityAccount, List.set_set]

/-- Counterexample to claim C7 as stated: on a fresh builder both the
account and mint slots are unset, yet `Validate` returns only the
account-slot message, which does not mention the mint slot. -/
theorem ThawAccount_validate_first_error_cex :
    NewThawAccountInstructionBuilder.accounts.getD 0 none = none
    ∧ NewThawAccountInstructionBuilder.accounts.getD 1 none = none
    ∧ NewThawAccountInstructionBuilder.Validate
      = some "accounts.Account is not set"
    ∧ ¬ List.IsInfix "Mint".data "accounts.Account is not set".data := by
  refine ⟨rfl, rfl, rfl, by decide⟩

/-- Claim C7 as amended: when more than one fixed slot is unset,
`Validate` fails fast with the message of the first unset slot in declared
order, not an enumeration of all unset slots. -/
theorem ThawAccount_validate_first_unset (inst : ThawAccount)
    (h : (inst.accounts.getD 0 none = none
          ∧ inst.accounts.getD 1 none = none)
       ∨ (inst.accounts.getD 0 none = none
          ∧ inst.accounts.getD 2 none = none)
       ∨ (inst.accounts.getD 1 none = none
          ∧ inst.accounts.getD 2 none = none)) :
    (inst.accounts.getD 0 none = none
      ∧ inst.Validate = some "accounts.Account is not set")
    ∨ (inst.accounts.getD 0 none ≠ none
      ∧ inst.accounts.getD 1 none = none
      ∧ inst.Validate = some "accounts.Mint is not set") := by
  by_cases h0 : inst.accounts.getD 0 none = none
  · exact Or.inl ⟨h0, by unfold ThawAccount.Validate; rw [if_pos h0]⟩
  · have h1 : inst.accounts.getD 1 none = none := by
      rcases h with ⟨ha, hb⟩ | ⟨ha, _⟩ | ⟨ha, _⟩
      · exact hb
      · exact absurd ha h0
      · exact ha
    exact Or.inr ⟨h0, h1,
      by unfold ThawAccount.Validate; rw [if_neg h0, if_pos h1]⟩

/-- Witness for the amended C7 at the fresh builder, whose first two slots
are both unset. -/
theorem ThawAccount_validate_first_unset_witness :
    (NewThawAccountInstructionBuilder.accounts.getD 0 none = none
      ∧ NewThawAccountInstructionBuilder.Validate
        = some "accounts.Account is not set")
    ∨ (NewThawAccountInstructionBuilder.accounts.getD 0 none ≠ none
      ∧ NewThawAccountInstructionBuilder.accounts.getD 1 none = none
      ∧ NewThawAccountInstructionBuilder.Validate
        = some "accounts.Mint is not set") :=
  ThawAccount_validate_first_unset NewThawAccountInstructionBuilder
    (Or.inl ⟨rfl, rfl⟩)

/-- Claim C8: `ValidateAndBuild` returns the validation error and no
instruction exactly when `Validate` fails, and otherwise returns the
instruction produced by `Build` — the discriminant tag with the
fixed-then-variable account list. -/
theorem ThawAccount_validateAndBuild_spec (inst : ThawAccount) :
    (∀ e, inst.Validate = some e →
      inst.ValidateAndBuild = Except.error e)
    ∧ (inst.Validate = none →
      inst.ValidateAndBuild = Except.ok inst.Build
      ∧ inst.Build.data = uint32LEBytes Instruction_ThawAccount
      ∧ inst.Build.accountList = inst.accounts ++ inst.signers) := by
  constructor
  · intro e he
    unfold ThawAccount.ValidateAndBuild
    rw [he]
  · intro hn
    refine ⟨?_, rfl, rfl⟩
    unfold ThawAccount.ValidateAndBuild
    rw [hn]

/-- Witness for C8: the fresh builder fails with its validation error and
no envelope; a fully set builder builds successfully. -/
theorem ThawAccount_validateAndBuild_spec_witness :
    NewThawAccountInstructionBuilder.ValidateAndBuild
      = Except.error "accounts.Account is not set"
    ∧ (NewThawAccountInstruction pkA pkM pkAu []).ValidateAndBuild
      = Except.ok (NewThawAccountInstruction pkA pkM pkAu []).Build :=
  ⟨(ThawAccount_validateAndBuild_spec NewThawAccountInstructionBuilder).1
     "accounts.Account is not set" (by decide),
   ((ThawAccount_validateAndBuild_spec
      (NewThawAccountInstruction pkA pkM pkAu [])).2 (by decide)).1⟩

/-- Claim C9: `SetAccounts` on a list of length at least 3 stores the
first three entries as the fixed segment and the remainder as the variable
segment, order preserved, and `GetAccounts` then returns the original
list. -/
theorem ThawAccount_setAccounts_split (inst : ThawAccount)
    (l : List (Option AccountMeta)) (h : 3 ≤ l.length) :
    (inst.SetAccounts l).accounts = l.take 3
    ∧ (inst.SetAccounts l).signers = l.drop 3
    ∧ (inst.SetAccounts l).accounts.length = 3
    ∧ (inst.SetAccounts l).GetAccounts = l := by
  refine ⟨rfl, rfl, ?_, ?_⟩
  · simp only [ThawAccount.SetAccounts, List.length_take]
    omega
  · simp [ThawAccount.GetAccounts, ThawAccount.SetAccounts,
      List.take_append_drop]

/-- A concrete flat account list of length 4 used by the C9 witness. -/
def wList : List (Option AccountMeta) :=
  [some ((Meta pkA).WRITE), some (Meta pkM), some (Meta pkAu),
   some ((Meta pkS1).SIGNER)]

/-- Witness for C9 at a concrete list of length 4. -/
theorem ThawAccount_setAccounts_split_witness :
    (NewThawAccountInstructionBuilder.SetAccounts wList).accounts
      = wList.take 3
    ∧ (NewThawAccountInstructionBuilder.SetAccounts wList).signers
      = wList.drop 3
    ∧ (NewThawAccountInstructionBuilder.SetAccounts wList).accounts.length = 3
    ∧ (NewThawAccountInstructionBuilder.SetAccounts wList).GetAccounts
      = wList :=
  ThawAccount_setAccounts_split NewThawAccountInstructionBuilder wList
    (by decide)
